import Mathlib

/-!
Verification development for the MAAS subnet core: the subnet resolver
(`maasserver/models/subnet.py`) and the address-space accounting engine
(`get_subnets_utilisation_stats`, whose tests live in
`maasserver/tests/test_stats.py`).

Addresses are modelled as a family tag (IPv4/IPv6) together with the raw
integer value of the address; CIDRs as a family, a masked network integer
and a prefix length.
-/

inductive Family
  | v4
  | v6
deriving DecidableEq, Repr

def Family.bits : Family → Nat
  | .v4 => 32
  | .v6 => 128

structure Address where
  family : Family
  val : Nat
deriving DecidableEq, Repr

structure Cidr where
  family : Family
  network : Nat
  prefixLen : Nat
deriving DecidableEq, Repr

def Cidr.bits (c : Cidr) : Nat := c.family.bits

def Cidr.hostBits (c : Cidr) : Nat := c.bits - c.prefixLen

def Cidr.total (c : Cidr) : Nat := 2 ^ c.hostBits

/-- Keep only the top `bits - h` bits of `v`: clear the low `h` host bits. -/
def maskTo (h v : Nat) : Nat := v / 2 ^ h * 2 ^ h

/-- Containment following the spec's own words (section 4.1, step 1): the
address masked by the subnet's prefix length equals the subnet's network
address, and a family mismatch excludes the candidate.  This definition is
kept distinct from the SQL operator the source uses, so the two can be
compared. -/
def specContains (c : Cidr) (a : Address) : Bool :=
  decide (a.family = c.family ∧ maskTo c.hostBits a.val = c.network)

/-- Address-range kinds of the accounting engine (`IPRANGE_TYPE.DYNAMIC`
and `IPRANGE_TYPE.RESERVED` in the tests). -/
inductive RangeKind
  | dynamic
  | reserved
deriving DecidableEq, Repr

/-- Allocation kinds of the accounting engine (`IPADDRESS_TYPE.DHCP`,
`IPADDRESS_TYPE.USER_RESERVED`, `IPADDRESS_TYPE.STICKY` in the tests). -/
inductive AllocKind
  | dynamicLease
  | userReserved
  | sticky
deriving DecidableEq, Repr

structure AddressRange where
  startIp : Address
  endIp : Address
  kind : RangeKind
deriving DecidableEq, Repr

structure Allocation where
  addr : Address
  kind : AllocKind
deriving DecidableEq, Repr

/-- A subnet as seen by the accounting engine: its CIDR and optional
gateway address. -/
structure SubnetCfg where
  cidr : Cidr
  gateway : Option Address
deriving DecidableEq, Repr

/-- Size of an inclusive address range: `end - start + 1`. -/
def rangeSize (r : AddressRange) : Int := (r.endIp.val : Int) - (r.startIp.val : Int) + 1

/-- Membership of a single address in an inclusive range (same family,
`start <= addr <= end`). -/
def inRange (r : AddressRange) (a : Address) : Bool :=
  decide (a.family = r.startIp.family ∧ r.startIp.val ≤ a.val ∧ a.val ≤ r.endIp.val)

/-- The bucket record returned by the accounting engine for one subnet. -/
structure BucketRecord where
  available : Int
  unavailable : Int
  dynamic_available : Int
  dynamic_used : Int
  reserved_available : Int
  reserved_used : Int
  static : Int
deriving DecidableEq, Repr

/-- Fault taxonomy of the core (spec section 7): `notFound` is the
resolver's valid no-match outcome; `dataIntegrity` is the accounting
engine's rejection of corrupt children. -/
inductive Fault
  | notFound
  | dataIntegrity
deriving DecidableEq, Repr

/-- The two edge addresses (network and broadcast) excluded from every
bucket when the block holds more than two addresses. -/
def Cidr.edgeReserved (c : Cidr) : Nat := if 2 < c.total then 2 else 0

/-- Modelled from the spec: the integrity precondition of the accounting
engine (sections 4.2 and 7 — a range, allocation or gateway lying outside
the subnet's CIDR, or of a mismatching family, is upstream data
corruption).  The engine's own source (`get_subnets_utilisation_stats`)
is not among the provided files; only its tests are. -/
def childrenWellFormed (s : SubnetCfg) (ranges : List AddressRange)
    (allocs : List Allocation) : Bool :=
  (s.gateway.all fun g => specContains s.cidr g) &&
  (ranges.all fun r => specContains s.cidr r.startIp && specContains s.cidr r.endIp) &&
  (allocs.all fun a => specContains s.cidr a.addr)

/-- Pool of addresses the engine distributes over buckets:
`total - edgeReserved`. -/
def Cidr.pool (c : Cidr) : Int := (c.total : Int) - (c.edgeReserved : Int)

/-- One if the subnet has a gateway set, else zero. -/
def gatewayCount (s : SubnetCfg) : Int := if s.gateway.isSome then 1 else 0

/-- The subnet's ranges of kind Dynamic. -/
def dynRanges (ranges : List AddressRange) : List AddressRange :=
  ranges.filter fun r => decide (r.kind = RangeKind.dynamic)

/-- The subnet's ranges of kind Reserved. -/
def resRanges (ranges : List AddressRange) : List AddressRange :=
  ranges.filter fun r => decide (r.kind = RangeKind.reserved)

/-- Sum of sizes of the Dynamic ranges. -/
def dynamicSize (ranges : List AddressRange) : Int :=
  ((dynRanges ranges).map rangeSize).sum

/-- Sum of sizes of the Reserved ranges. -/
def reservedSize (ranges : List AddressRange) : Int :=
  ((resRanges ranges).map rangeSize).sum

/-- Count of allocations of kind DynamicLease lying inside some Dynamic
range. -/
def dynamicUsed (ranges : List AddressRange) (allocs : List Allocation) : Int :=
  ((allocs.filter fun a =>
    decide (a.kind = AllocKind.dynamicLease) &&
      (dynRanges ranges).any fun r => inRange r a.addr).length : Int)

/-- Count of allocations of kind UserReserved lying inside some Reserved
range. -/
def reservedUsed (ranges : List AddressRange) (allocs : List Allocation) : Int :=
  ((allocs.filter fun a =>
    decide (a.kind = AllocKind.userReserved) &&
      (resRanges ranges).any fun r => inRange r a.addr).length : Int)

/-- Count of allocations not counted in `dynamicUsed` or `reservedUsed`
whose address is neither the gateway nor inside any Dynamic or Reserved
range. -/
def staticUsed (s : SubnetCfg) (ranges : List AddressRange)
    (allocs : List Allocation) : Int :=
  ((allocs.filter fun a =>
    (!(decide (a.kind = AllocKind.dynamicLease) &&
        (dynRanges ranges).any fun r => inRange r a.addr)) &&
    (!(decide (a.kind = AllocKind.userReserved) &&
        (resRanges ranges).any fun r => inRange r a.addr)) &&
    decide (s.gateway ≠ some a.addr) &&
    (!(dynRanges ranges).any fun r => inRange r a.addr) &&
    (!(resRanges ranges).any fun r => inRange r a.addr)).length : Int)

/-- Unavailable addresses: gateway plus both range sizes plus static
allocations. -/
def unavailableOf (s : SubnetCfg) (ranges : List AddressRange)
    (allocs : List Allocation) : Int :=
  gatewayCount s + dynamicSize ranges + reservedSize ranges + staticUsed s ranges allocs

/-- Modelled from the spec: the accounting engine
`accountFor(subnet, ranges, allocations)` of section 4.2.  The source of
`get_subnets_utilisation_stats` is not among the provided files (only its
tests in `test_stats.py` are), so the bucket arithmetic is taken verbatim
from the spec's formulas: `total = 2^(bits - prefixLen)`,
`edgeReserved = 2` when `total > 2` else `0`, `pool = total - edgeReserved`,
range sizes summed per kind, used counters over allocations inside ranges
of the matching kind, `static` counting the remaining allocations that are
neither the gateway nor inside any range, `unavailable = gatewayCount +
dynamicSize + reservedSize + staticUsed` and `available = pool -
unavailable`.  Corrupt children are rejected with a data-integrity fault. -/
def accountFor (s : SubnetCfg) (ranges : List AddressRange)
    (allocs : List Allocation) : Except Fault BucketRecord :=
  if childrenWellFormed s ranges allocs then
    Except.ok
      { available := s.cidr.pool - unavailableOf s ranges allocs
        unavailable := unavailableOf s ranges allocs
        dynamic_available := dynamicSize ranges - dynamicUsed ranges allocs
        dynamic_used := dynamicUsed ranges allocs
        reserved_available := reservedSize ranges - reservedUsed ranges allocs
        reserved_used := reservedUsed ranges allocs
        static := staticUsed s ranges allocs }
  else
    Except.error Fault.dataIntegrity

def sn1 : SubnetCfg := ⟨⟨Family.v4, 16908288, 16⟩, some ⟨Family.v4, 16908542⟩⟩

def sn2 : SubnetCfg := ⟨⟨Family.v6, 1, 128⟩, none⟩

def dynRange3 : AddressRange :=
  ⟨⟨Family.v4, 16908299⟩, ⟨Family.v4, 16908308⟩, RangeKind.dynamic⟩

def resRange3 : AddressRange :=
  ⟨⟨Family.v4, 16908339⟩, ⟨Family.v4, 16908358⟩, RangeKind.reserved⟩

def allocs3 : List Allocation :=
  [⟨⟨Family.v4, 16908300⟩, AllocKind.dynamicLease⟩,
   ⟨⟨Family.v4, 16908348⟩, AllocKind.userReserved⟩,
   ⟨⟨Family.v4, 16908349⟩, AllocKind.userReserved⟩,
   ⟨⟨Family.v4, 16908368⟩, AllocKind.sticky⟩,
   ⟨⟨Family.v4, 16908378⟩, AllocKind.sticky⟩,
   ⟨⟨Family.v4, 16908388⟩, AllocKind.sticky⟩]

def rec1 : BucketRecord := ⟨65533, 1, 0, 0, 0, 0, 0⟩

def rec2 : BucketRecord := ⟨1, 0, 0, 0, 0, 0, 0⟩

def rec3 : BucketRecord := ⟨65500, 34, 9, 1, 18, 2, 3⟩

/-- C1: for every input the accounting engine accepts, the returned
record satisfies `available + unavailable = total - edgeReserved`, with
`total = 2^(bits - prefixLen)` and `edgeReserved` two exactly when the
block holds more than two addresses — also with zero ranges, zero
allocations or no gateway. -/
theorem accounting_invariant (s : SubnetCfg) (ranges : List AddressRange)
    (allocs : List Allocation) (r : BucketRecord)
    (h : accountFor s ranges allocs = Except.ok r) :
    r.available + r.unavailable = (s.cidr.total : Int) - (s.cidr.edgeReserved : Int) := by
  unfold accountFor at h
  split at h
  · injection h with h
    subst h
    show s.cidr.pool - unavailableOf s ranges allocs + unavailableOf s ranges allocs = _
    unfold Cidr.pool
    ring
  · exact absurd h (by simp)

theorem accounting_invariant_witness :
    rec1.available + rec1.unavailable = (sn1.cidr.total : Int) - (sn1.cidr.edgeReserved : Int) :=
  accounting_invariant sn1 [] [] rec1 (by rfl)

/-- C2: for every input the accounting engine accepts, the returned
record satisfies `dynamic_used + dynamic_available = sum of the sizes of
the Dynamic ranges` and likewise for the Reserved ranges. -/
theorem accounting_range_sums (s : SubnetCfg) (ranges : List AddressRange)
    (allocs : List Allocation) (r : BucketRecord)
    (h : accountFor s ranges allocs = Except.ok r) :
    r.dynamic_used + r.dynamic_available =
      ((ranges.filter fun rg => decide (rg.kind = RangeKind.dynamic)).map rangeSize).sum ∧
    r.reserved_used + r.reserved_available =
      ((ranges.filter fun rg => decide (rg.kind = RangeKind.reserved)).map rangeSize).sum := by
  unfold accountFor at h
  split at h
  · injection h with h
    subst h
    constructor
    · show dynamicUsed ranges allocs + (dynamicSize ranges - dynamicUsed ranges allocs) = _
      unfold dynamicSize dynRanges
      ring
    · show reservedUsed ranges allocs + (reservedSize ranges - reservedUsed ranges allocs) = _
      unfold reservedSize resRanges
      ring
  · exact absurd h (by simp)

/-- C9: an input holding a range or allocation outside the subnet's CIDR
(a family mismatch included, since the containment test compares families)
is rejected with a data-integrity fault, an outcome distinct from the
resolver's not-found, and no bucket record is produced for it. -/
theorem accounting_rejects_corrupt (s : SubnetCfg) (ranges : List AddressRange)
    (allocs : List Allocation)
    (h : (∃ rg ∈ ranges, specContains s.cidr rg.startIp = false ∨
            specContains s.cidr rg.endIp = false) ∨
         (∃ a ∈ allocs, specContains s.cidr a.addr = false)) :
    accountFor s ranges allocs = Except.error Fault.dataIntegrity ∧
    Fault.dataIntegrity ≠ Fault.notFound ∧
    ∀ r : BucketRecord, accountFor s ranges allocs ≠ Except.ok r := by
  have hw : ¬ childrenWellFormed s ranges allocs = true := by
    simp only [childrenWellFormed, Bool.and_eq_true, List.all_eq_true]
    rintro ⟨⟨-, hr⟩, ha⟩
    rcases h with ⟨rg, hrg, hbad⟩ | ⟨a, haa, hbad⟩
    · rcases hr rg hrg with ⟨h1, h2⟩
      rcases hbad with hb | hb
      · rw [hb] at h1; exact Bool.false_ne_true h1
      · rw [hb] at h2; exact Bool.false_ne_true h2
    · have hc := ha a haa
      rw [hbad] at hc
      exact Bool.false_ne_true hc
  have hacc : accountFor s ranges allocs = Except.error Fault.dataIntegrity := by
    unfold accountFor
    rw [if_neg hw]
  refine ⟨hacc, by decide, fun r hr => ?_⟩
  rw [hacc] at hr
  exact Except.noConfusion hr

def badAlloc : Allocation := ⟨⟨Family.v4, 167772161⟩, AllocKind.sticky⟩

theorem accounting_rejects_corrupt_witness :
    accountFor sn1 [] [badAlloc] = Except.error Fault.dataIntegrity ∧
    Fault.dataIntegrity ≠ Fault.notFound ∧
    ∀ r : BucketRecord, accountFor sn1 [] [badAlloc] ≠ Except.ok r :=
  accounting_rejects_corrupt sn1 [] [badAlloc]
    (Or.inr ⟨badAlloc, List.mem_singleton.mpr rfl, by rfl⟩)

/-- C3: the three scenario records of the spec.  For 1.2.0.0/16 with
gateway 1.2.0.254 and no children: 65533 available, 1 unavailable, the
rest zero.  For ::1/128 with no gateway: 1 available, all else zero.  For
1.2.0.0/16 with gateway, a Dynamic range of size ten holding one DHCP
lease, a Reserved range of size twenty holding two user reservations and
three Sticky allocations outside any range: 65500 available, 34
unavailable, 9/1 dynamic, 18/2 reserved, 3 static. -/
theorem accounting_scenarios :
    accountFor sn1 [] [] = Except.ok rec1 ∧
    accountFor sn2 [] [] = Except.ok rec2 ∧
    accountFor sn1 [dynRange3, resRange3] allocs3 = Except.ok rec3 :=
  ⟨rfl, rfl, rfl⟩

theorem accounting_range_sums_witness :
    rec3.dynamic_used + rec3.dynamic_available =
      (([dynRange3, resRange3].filter fun rg =>
        decide (rg.kind = RangeKind.dynamic)).map rangeSize).sum ∧
    rec3.reserved_used + rec3.reserved_available =
      (([dynRange3, resRange3].filter fun rg =>
        decide (rg.kind = RangeKind.reserved)).map rangeSize).sum :=
  accounting_range_sums sn1 [dynRange3, resRange3] allocs3 rec3 (by rfl)

/-- A subnet row as the resolver queries see it (`maasserver_subnet`):
identity, CIDR and the VLAN the subnet references. -/
structure SubnetRec where
  id : Nat
  cidr : Cidr
  vlan_id : Nat
deriving DecidableEq, Repr

/-- A VLAN row (`maasserver_vlan`): identity and owning fabric. -/
structure VlanRec where
  id : Nat
  fabric_id : Nat
deriving DecidableEq, Repr

/-- A nodegroup (cluster controller) row (`maasserver_nodegroup`);
`status = 1` is an active cluster. -/
structure NodeGroupRec where
  id : Nat
  status : Nat
deriving DecidableEq, Repr

/-- A cluster-interface row (`maasserver_nodegroupinterface`);
`management != 0` is a managed interface. -/
structure NgiRec where
  subnet_id : Nat
  vlan_id : Nat
  nodegroup_id : Nat
  management : Nat
deriving DecidableEq, Repr

/-- The snapshot of database state the resolver queries run against. -/
structure Registry where
  subnets : List SubnetRec
  vlans : List VlanRec
  nodegroups : List NodeGroupRec
  interfaces : List NgiRec
deriving Repr

/-- The PostgreSQL test `ip << subnet.cidr` used by both resolver queries
in `SubnetManager` (`maasserver/models/subnet.py`).  The address literal
is cast to `inet` with a full-length mask (/32 for IPv4, /128 for IPv6),
and `<<` is strict containment: it holds when the families agree, the
left mask length (the full family width here) strictly exceeds the right
prefix length, and the address agrees with the network on the prefix
bits.  In particular a /32 or /128 subnet equal to the address itself is
never matched, because `<<` excludes equality (PostgreSQL offers `<<=`
for the inclusive test; the queries do not use it). -/
def sqlContains (a : Address) (c : Cidr) : Bool :=
  decide (a.family = c.family ∧ c.prefixLen < a.family.bits ∧
    maskTo c.hostBits a.val = c.network)

/-- Descending order on prefix length: the `ORDER BY prefixlen DESC` of
both queries. -/
def prefOrder (a b : SubnetRec) : Prop := b.cidr.prefixLen ≤ a.cidr.prefixLen

instance : DecidableRel prefOrder := fun a b => Nat.decLe b.cidr.prefixLen a.cidr.prefixLen

instance : IsTotal SubnetRec prefOrder :=
  ⟨fun a b => Nat.le_total b.cidr.prefixLen a.cidr.prefixLen⟩

instance : IsTrans SubnetRec prefOrder :=
  ⟨fun _ _ _ hab hbc => le_trans hbc hab⟩

/-- The WHERE clause of `find_subnets_with_ip_query`. -/
def candidatesWithIp (reg : Registry) (ip : Address) : List SubnetRec :=
  reg.subnets.filter fun s => sqlContains ip s.cidr

/-- `SubnetManager.get_subnets_with_ip`: every subnet containing the
address, most specific first (`ORDER BY prefixlen DESC`; the relative
order of rows tied on prefixlen is unspecified in SQL, the model keeps
snapshot order). -/
def get_subnets_with_ip (reg : Registry) (ip : Address) : List SubnetRec :=
  List.insertionSort prefOrder (candidatesWithIp reg ip)

/-- The joins and remaining WHERE clauses of
`find_managed_subnet_with_ip_query`: some `maasserver_nodegroupinterface`
row references the subnet, is managed (`management != 0`), belongs to an
active nodegroup (`status = 1`), and its VLAN row lies on the requested
fabric. -/
def managedPasses (reg : Registry) (fabricId : Nat) (s : SubnetRec) : Bool :=
  reg.interfaces.any fun ngi =>
    decide (ngi.subnet_id = s.id) &&
    decide (ngi.management ≠ 0) &&
    (reg.nodegroups.any fun ng => decide (ng.id = ngi.nodegroup_id ∧ ng.status = 1)) &&
    (reg.vlans.any fun v => decide (v.id = ngi.vlan_id ∧ v.fabric_id = fabricId))

/-- Subnet rows satisfying the full WHERE clause of the managed query. -/
def managedCandidates (reg : Registry) (ip : Address) (fabricId : Nat) :
    List SubnetRec :=
  reg.subnets.filter fun s => sqlContains ip s.cidr && managedPasses reg fabricId s

/-- `find_managed_subnet_with_ip_query` with its `ORDER BY prefixlen DESC
LIMIT 1`, followed by the first-row-or-None loop of
`get_managed_subnet_with_ip`. -/
def find_managed_subnet_with_ip (reg : Registry) (ip : Address)
    (fabricId : Nat) : Option SubnetRec :=
  (List.insertionSort prefOrder (managedCandidates reg ip fabricId)).head?

/-- `SubnetManager.get_managed_subnet_with_ip`: when no fabric is supplied
the default fabric identifier 0 is used. -/
def get_managed_subnet_with_ip (reg : Registry) (ip : Address)
    (fabric : Option Nat) : Option SubnetRec :=
  find_managed_subnet_with_ip reg ip (fabric.getD 0)

theorem head_insertionSort_max (l : List SubnetRec) (t : SubnetRec)
    (h : (List.insertionSort prefOrder l).head? = some t) :
    t ∈ l ∧ ∀ u ∈ l, u.cidr.prefixLen ≤ t.cidr.prefixLen := by
  have hs := List.sorted_insertionSort prefOrder l
  cases hL : List.insertionSort prefOrder l with
  | nil => rw [hL] at h; exact absurd h (by simp)
  | cons x rest =>
    rw [hL] at h hs
    simp only [List.head?_cons, Option.some.injEq] at h
    subst h
    have hmem : x ∈ l := by
      have hx : x ∈ List.insertionSort prefOrder l := by
        rw [hL]; exact List.mem_cons_self _ _
      exact (List.mem_insertionSort prefOrder).mp hx
    refine ⟨hmem, fun u hu => ?_⟩
    have hu2 : u ∈ List.insertionSort prefOrder l := (List.mem_insertionSort prefOrder).mpr hu
    rw [hL] at hu2
    rcases List.mem_cons.mp hu2 with rfl | hu3
    · exact le_refl _
    · exact (List.sorted_cons.mp hs).1 u hu3

theorem insertionSort_nil_iff (l : List SubnetRec) :
    List.insertionSort prefOrder l = [] ↔ l = [] := by
  constructor
  · intro h
    have p := List.perm_insertionSort prefOrder l
    rw [h] at p
    exact p.symm.eq_nil
  · intro h; subst h; rfl

theorem head_insertionSort_ne_none (l : List SubnetRec) (s : SubnetRec)
    (h : s ∈ l) :
    ∃ t, (List.insertionSort prefOrder l).head? = some t := by
  cases hL : List.insertionSort prefOrder l with
  | nil =>
    rw [insertionSort_nil_iff] at hL
    subst hL
    exact absurd h (List.not_mem_nil s)
  | cons x rest => exact ⟨x, rfl⟩

theorem find_managed_none_iff (reg : Registry) (ip : Address) (fabricId : Nat) :
    find_managed_subnet_with_ip reg ip fabricId = none ↔
      ∀ s ∈ reg.subnets,
        ¬(sqlContains ip s.cidr = true ∧ managedPasses reg fabricId s = true) := by
  unfold find_managed_subnet_with_ip
  rw [List.head?_eq_none_iff, insertionSort_nil_iff]
  unfold managedCandidates
  simp only [List.filter_eq_nil_iff, Bool.and_eq_true]

theorem managedPasses_iff (reg : Registry) (fabricId : Nat) (s : SubnetRec) :
    managedPasses reg fabricId s = true ↔
      ∃ ngi ∈ reg.interfaces, ngi.subnet_id = s.id ∧ ngi.management ≠ 0 ∧
        (∃ ng ∈ reg.nodegroups, ng.id = ngi.nodegroup_id ∧ ng.status = 1) ∧
        (∃ v ∈ reg.vlans, v.id = ngi.vlan_id ∧ v.fabric_id = fabricId) := by
  unfold managedPasses
  simp only [List.any_eq_true, Bool.and_eq_true, decide_eq_true_eq]
  tauto

/-- Consistency taken from the spec's data model (section 3): an interface
serving a subnet lies on that subnet's VLAN.  The database schema joins the
managed query through the interface's own `vlan_id` column, so this ties
the two columns together. -/
def Registry.vlanConsistent (reg : Registry) : Prop :=
  ∀ ngi ∈ reg.interfaces, ∀ s ∈ reg.subnets,
    ngi.subnet_id = s.id → ngi.vlan_id = s.vlan_id

theorem none_of_no_fabric_vlan (reg : Registry) (ip : Address) (fabricId : Nat)
    (hwf : reg.vlanConsistent)
    (h : ∀ s ∈ reg.subnets, sqlContains ip s.cidr = true →
      ¬ ∃ v ∈ reg.vlans, v.id = s.vlan_id ∧ v.fabric_id = fabricId) :
    find_managed_subnet_with_ip reg ip fabricId = none := by
  rw [find_managed_none_iff]
  rintro s hs ⟨hc, hp⟩
  obtain ⟨ngi, hngi, hsub, -, -, v, hv, hvid, hvf⟩ := (managedPasses_iff reg fabricId s).mp hp
  exact h s hs hc ⟨v, hv, by rw [← hwf ngi hngi s hs hsub]; exact hvid, hvf⟩

/-- The single validation fault `Subnet.clean` can raise. -/
inductive ValidationError
  | gatewayOutsideCidr
deriving DecidableEq, Repr

/-- The netaddr membership test `gateway_addr in self.get_cidr()` used by
`Subnet.validate_gateway_ip`: the address lies in the inclusive interval
from the network's first to its last address, and the families agree. -/
def netaddrContains (c : Cidr) (a : Address) : Bool :=
  decide (a.family = c.family ∧ c.network ≤ a.val ∧ a.val ≤ c.network + (c.total - 1))

/-- A subnet as `Subnet.clean` sees it: the CIDR and the nullable
`gateway_ip` column (`None` and the empty string are both `none`). -/
structure SubnetModelRec where
  cidr : Cidr
  gateway_ip : Option Address
deriving DecidableEq, Repr

/-- `Subnet.validate_gateway_ip`: return silently when the gateway is
absent, raise a `ValidationError` when it is present and not inside the
CIDR. -/
def validate_gateway_ip (s : SubnetModelRec) : Option ValidationError :=
  match s.gateway_ip with
  | none => none
  | some g =>
    if netaddrContains s.cidr g then none
    else some ValidationError.gatewayOutsideCidr

/-- `Subnet.clean`, whose body only calls `validate_gateway_ip`. -/
def SubnetModelRec.clean (s : SubnetModelRec) : Option ValidationError :=
  validate_gateway_ip s

def ipC4 : Address := ⟨Family.v4, 16909060⟩

def s24C4 : SubnetRec := ⟨1, ⟨Family.v4, 16909056, 24⟩, 1⟩

def s32C4 : SubnetRec := ⟨2, ⟨Family.v4, 16909060, 32⟩, 1⟩

def regC4 : Registry := ⟨[s24C4, s32C4], [], [], []⟩

def regW4 : Registry := ⟨[s24C4], [⟨1, 0⟩], [⟨1, 1⟩], [⟨1, 1, 1, 1⟩]⟩

/-- C4 counterexample: with subnets 1.2.3.0/24 and 1.2.3.4/32 both
containing 1.2.3.4 in the spec's sense, the unscoped lookup returns the
/24 subnet, not the /32 one with the greatest prefix length: the SQL `<<`
operator is strict, so the full-length /32 block equal to the address is
never a candidate. -/
theorem resolver_longest_prefix_cex :
    specContains s32C4.cidr ipC4 = true ∧
    specContains s24C4.cidr ipC4 = true ∧
    s24C4.cidr.prefixLen < s32C4.cidr.prefixLen ∧
    (get_subnets_with_ip regC4 ipC4).head? = some s24C4 ∧
    s24C4 ≠ s32C4 := by
  refine ⟨rfl, rfl, by decide, by rfl, by decide⟩

/-- C4 amended: for every address, both the unscoped and the fabric-scoped
lookup return, among the candidates that survive filtering (containment
being the strict SQL `<<` test), one with the greatest prefix length. -/
theorem resolver_longest_prefix (reg : Registry) (ip : Address)
    (fabricId : Nat) (s1 s2 : SubnetRec)
    (h1 : s1 ∈ candidatesWithIp reg ip)
    (h2 : s2 ∈ managedCandidates reg ip fabricId) :
    (∃ t, (get_subnets_with_ip reg ip).head? = some t ∧
      t ∈ candidatesWithIp reg ip ∧
      ∀ u ∈ candidatesWithIp reg ip, u.cidr.prefixLen ≤ t.cidr.prefixLen) ∧
    (∃ t, find_managed_subnet_with_ip reg ip fabricId = some t ∧
      t ∈ managedCandidates reg ip fabricId ∧
      ∀ u ∈ managedCandidates reg ip fabricId,
        u.cidr.prefixLen ≤ t.cidr.prefixLen) := by
  constructor
  · obtain ⟨t, ht⟩ := head_insertionSort_ne_none _ s1 h1
    obtain ⟨htm, hmax⟩ := head_insertionSort_max _ t ht
    exact ⟨t, ht, htm, hmax⟩
  · obtain ⟨t, ht⟩ := head_insertionSort_ne_none _ s2 h2
    obtain ⟨htm, hmax⟩ := head_insertionSort_max _ t ht
    exact ⟨t, ht, htm, hmax⟩

theorem resolver_longest_prefix_witness :
    s24C4 ∈ candidatesWithIp regW4 ipC4 ∧
    s24C4 ∈ managedCandidates regW4 ipC4 0 ∧
    ((∃ t, (get_subnets_with_ip regW4 ipC4).head? = some t ∧
      t ∈ candidatesWithIp regW4 ipC4 ∧
      ∀ u ∈ candidatesWithIp regW4 ipC4, u.cidr.prefixLen ≤ t.cidr.prefixLen) ∧
    (∃ t, find_managed_subnet_with_ip regW4 ipC4 0 = some t ∧
      t ∈ managedCandidates regW4 ipC4 0 ∧
      ∀ u ∈ managedCandidates regW4 ipC4 0,
        u.cidr.prefixLen ≤ t.cidr.prefixLen)) :=
  ⟨by decide, by decide,
    resolver_longest_prefix regW4 ipC4 0 s24C4 s24C4 (by decide) (by decide)⟩

/-- C5: with a scope supplied and interfaces lying on their subnet's VLAN,
a returned subnet always contains the address, its VLAN belongs to the
requested fabric, and it is served by a managed interface on an active
cluster controller; and when no subnet on that fabric contains the
address, the lookup returns no match. -/
theorem resolver_scope_filtering (reg : Registry) (ip : Address)
    (fabricId : Nat) (hwf : reg.vlanConsistent) :
    (∀ s, find_managed_subnet_with_ip reg ip fabricId = some s →
      s ∈ reg.subnets ∧ sqlContains ip s.cidr = true ∧
      (∃ v ∈ reg.vlans, v.id = s.vlan_id ∧ v.fabric_id = fabricId) ∧
      (∃ ngi ∈ reg.interfaces, ngi.subnet_id = s.id ∧ ngi.vlan_id = s.vlan_id ∧
        ngi.management ≠ 0 ∧
        ∃ ng ∈ reg.nodegroups, ng.id = ngi.nodegroup_id ∧ ng.status = 1)) ∧
    ((∀ s ∈ reg.subnets, sqlContains ip s.cidr = true →
        ¬ ∃ v ∈ reg.vlans, v.id = s.vlan_id ∧ v.fabric_id = fabricId) →
      find_managed_subnet_with_ip reg ip fabricId = none) := by
  constructor
  · intro s hs
    unfold find_managed_subnet_with_ip at hs
    obtain ⟨hmem, -⟩ := head_insertionSort_max _ s hs
    unfold managedCandidates at hmem
    rw [List.mem_filter, Bool.and_eq_true] at hmem
    obtain ⟨hsub, hc, hp⟩ := hmem
    obtain ⟨ngi, hngi, hid, hmg, hng, v, hv, hvid, hvf⟩ :=
      (managedPasses_iff reg fabricId s).mp hp
    have hvl : ngi.vlan_id = s.vlan_id := hwf ngi hngi s hsub hid
    exact ⟨hsub, hc, ⟨v, hv, by rw [← hvl]; exact hvid, hvf⟩,
      ⟨ngi, hngi, hid, hvl, hmg, hng⟩⟩
  · exact none_of_no_fabric_vlan reg ip fabricId hwf

theorem resolver_scope_filtering_witness :
    regW4.vlanConsistent ∧
    ((∀ s, find_managed_subnet_with_ip regW4 ipC4 0 = some s →
      s ∈ regW4.subnets ∧ sqlContains ipC4 s.cidr = true ∧
      (∃ v ∈ regW4.vlans, v.id = s.vlan_id ∧ v.fabric_id = 0) ∧
      (∃ ngi ∈ regW4.interfaces, ngi.subnet_id = s.id ∧ ngi.vlan_id = s.vlan_id ∧
        ngi.management ≠ 0 ∧
        ∃ ng ∈ regW4.nodegroups, ng.id = ngi.nodegroup_id ∧ ng.status = 1)) ∧
    ((∀ s ∈ regW4.subnets, sqlContains ipC4 s.cidr = true →
        ¬ ∃ v ∈ regW4.vlans, v.id = s.vlan_id ∧ v.fabric_id = 0) →
      find_managed_subnet_with_ip regW4 ipC4 0 = none)) :=
  ⟨by unfold Registry.vlanConsistent; decide,
    resolver_scope_filtering regW4 ipC4 0 (by unfold Registry.vlanConsistent; decide)⟩

def ipC6 : Address := ⟨Family.v4, 33752069⟩

def subC6 : SubnetRec := ⟨1, ⟨Family.v4, 33752069, 32⟩, 1⟩

def regC6 : Registry := ⟨[subC6], [⟨1, 0⟩], [⟨1, 1⟩], [⟨1, 1, 1, 2⟩]⟩

/-- C6 counterexample: the scoped lookup reports no match for 2.3.4.5 even
though the registered /32 subnet 2.3.4.5/32 contains the address in the
spec's sense and survives every scope filter (default fabric, managed
interface, active cluster): the strict SQL `<<` never matches a
full-length block, so "no match" does not coincide with "no candidate
contains the address or filtering removed all candidates". -/
theorem resolver_no_match_cex :
    get_managed_subnet_with_ip regC6 ipC6 none = none ∧
    subC6 ∈ regC6.subnets ∧
    specContains subC6.cidr ipC6 = true ∧
    managedPasses regC6 0 subC6 = true := by
  refine ⟨by rfl, by decide, rfl, by rfl⟩

/-- C6 amended: the scoped lookup is a total function into an option type
(no error outcome exists), and it returns `none` exactly when no subnet of
the snapshot both strictly contains the address (the SQL `<<` test) and
survives the scope filter. -/
theorem resolver_no_match_iff (reg : Registry) (ip : Address)
    (fabric : Option Nat) :
    get_managed_subnet_with_ip reg ip fabric = none ↔
      ∀ s ∈ reg.subnets,
        ¬(sqlContains ip s.cidr = true ∧
          managedPasses reg (fabric.getD 0) s = true) := by
  unfold get_managed_subnet_with_ip
  exact find_managed_none_iff reg ip (fabric.getD 0)

/-- C7: the scoped lookup is a deterministic function of the snapshot,
address and scope, and when two candidates tie at the maximal prefix
length it still returns one candidate of that maximal prefix length
rather than failing. -/
theorem resolver_deterministic (reg : Registry) (ip : Address)
    (scope : Option Nat) (s1 s2 : SubnetRec)
    (h1 : s1 ∈ managedCandidates reg ip (scope.getD 0))
    (h2 : s2 ∈ managedCandidates reg ip (scope.getD 0))
    (hmax : ∀ u ∈ managedCandidates reg ip (scope.getD 0),
      u.cidr.prefixLen ≤ s1.cidr.prefixLen)
    (htie : s1.cidr.prefixLen = s2.cidr.prefixLen) :
    get_managed_subnet_with_ip reg ip scope =
      get_managed_subnet_with_ip reg ip scope ∧
    ∃ t, get_managed_subnet_with_ip reg ip scope = some t ∧
      t ∈ managedCandidates reg ip (scope.getD 0) ∧
      t.cidr.prefixLen = s1.cidr.prefixLen ∧
      t.cidr.prefixLen = s2.cidr.prefixLen := by
  refine ⟨rfl, ?_⟩
  obtain ⟨t, ht⟩ := head_insertionSort_ne_none _ s1 h1
  obtain ⟨htm, hmaxt⟩ := head_insertionSort_max _ t ht
  have hteq : t.cidr.prefixLen = s1.cidr.prefixLen :=
    le_antisymm (hmax t htm) (hmaxt s1 h1)
  have hteq2 : t.cidr.prefixLen = s2.cidr.prefixLen :=
    le_antisymm (htie ▸ hmax t htm) (hmaxt s2 h2)
  exact ⟨t, ht, htm, hteq, hteq2⟩

def subT1 : SubnetRec := ⟨1, ⟨Family.v4, 16908288, 16⟩, 1⟩

def subT2 : SubnetRec := ⟨2, ⟨Family.v4, 16908288, 16⟩, 1⟩

def regW7 : Registry :=
  ⟨[subT1, subT2], [⟨1, 0⟩], [⟨1, 1⟩], [⟨1, 1, 1, 1⟩, ⟨2, 1, 1, 1⟩]⟩

def ipW7 : Address := ⟨Family.v4, 16908542⟩

theorem resolver_deterministic_witness :
    subT1 ∈ managedCandidates regW7 ipW7 ((none : Option Nat).getD 0) ∧
    subT2 ∈ managedCandidates regW7 ipW7 ((none : Option Nat).getD 0) ∧
    subT1 ≠ subT2 ∧
    (get_managed_subnet_with_ip regW7 ipW7 none =
      get_managed_subnet_with_ip regW7 ipW7 none ∧
    ∃ t, get_managed_subnet_with_ip regW7 ipW7 none = some t ∧
      t ∈ managedCandidates regW7 ipW7 ((none : Option Nat).getD 0) ∧
      t.cidr.prefixLen = subT1.cidr.prefixLen ∧
      t.cidr.prefixLen = subT2.cidr.prefixLen) :=
  ⟨by decide, by decide, by decide,
    resolver_deterministic regW7 ipW7 none subT1 subT2
      (by decide) (by decide) (by decide) (by decide)⟩

/-- C10: with `fabric=None` the scoped lookup still filters, on the
default fabric identifier 0; an address whose containing subnets all lie
on VLANs of other fabrics yields no match. -/
theorem resolver_default_fabric (reg : Registry) (ip : Address)
    (hwf : reg.vlanConsistent)
    (h : ∀ s ∈ reg.subnets, sqlContains ip s.cidr = true →
      ¬ ∃ v ∈ reg.vlans, v.id = s.vlan_id ∧ v.fabric_id = 0) :
    get_managed_subnet_with_ip reg ip none =
      find_managed_subnet_with_ip reg ip 0 ∧
    get_managed_subnet_with_ip reg ip none = none :=
  ⟨rfl, none_of_no_fabric_vlan reg ip 0 hwf h⟩

def subW10 : SubnetRec := ⟨1, ⟨Family.v4, 16908288, 16⟩, 1⟩

def regW10 : Registry := ⟨[subW10], [⟨1, 3⟩], [⟨1, 1⟩], [⟨1, 1, 1, 1⟩]⟩

def ipW10 : Address := ⟨Family.v4, 16908542⟩

theorem resolver_default_fabric_witness :
    regW10.vlanConsistent ∧
    sqlContains ipW10 subW10.cidr = true ∧
    managedPasses regW10 3 subW10 = true ∧
    (get_managed_subnet_with_ip regW10 ipW10 none =
      find_managed_subnet_with_ip regW10 ipW10 0 ∧
    get_managed_subnet_with_ip regW10 ipW10 none = none) :=
  ⟨by unfold Registry.vlanConsistent; decide, by rfl, by rfl,
    resolver_default_fabric regW10 ipW10
      (by unfold Registry.vlanConsistent; decide) (by decide)⟩

/-- C8: `Subnet.clean` (which only runs `validate_gateway_ip`) reports a
validation error exactly when a gateway is present and lies outside the
CIDR's address range; with no gateway, or a gateway inside the range,
validation passes silently (the check reads the record and never writes
it). -/
theorem gateway_validation_iff (s : SubnetModelRec) :
    ((∃ e, s.clean = some e) ↔
      ∃ g, s.gateway_ip = some g ∧ netaddrContains s.cidr g = false) ∧
    (s.clean = none ↔
      (s.gateway_ip = none ∨
        ∃ g, s.gateway_ip = some g ∧ netaddrContains s.cidr g = true)) := by
  unfold SubnetModelRec.clean validate_gateway_ip
  cases hg : s.gateway_ip with
  | none => simp
  | some g =>
    cases hc : netaddrContains s.cidr g with
    | false => simp [hc]; exact ⟨ValidationError.gatewayOutsideCidr, trivial⟩
    | true => simp [hc]
